import Mathlib

/-!
Verification development for the garmin-to-notion synchronisation scripts
(`activity-sync.py`, `sleep-sync.py`, `weight-sync.py`).

The Python scripts work over semi-structured JSON records fetched from the
Garmin API and write typed properties into Notion databases.  We embed:

* a JSON-like value type `JVal` for source records (Python `None` is
  `JVal.null`; `dict.get` of a missing key yields `JVal.null`, matching the
  way the scripts treat missing keys and `None` values interchangeably in
  `or`-fallback chains);
* the field-resolution idiom `r.get(a) or r.get(b) or ...` (`resolveChain`);
* the numeric coercions `float(x)` / `int(x)` on JSON values (`toNum`,
  `toIntPy`; modelled over `ℚ` — the claims under study do not depend on
  binary floating-point rounding, and string inputs are modelled for plain
  decimal literals);
* the Notion destination store: records addressed by a unique key, the
  query-then-patch-or-create upsert (`notion_upsert_activity`,
  `notion_upsert` in sleep-sync, `notion_upsert_weight` — all three share
  this exact shape, generic here in the key type);
* the retry loop `notion_request`, the zone bucketizer
  `bucket_zones_seconds`, the provider-aggregate parser
  `parse_time_in_zone_seconds` and its caller, the per-record weight
  normalisation of `weight-sync.py`, and the (exception-free) orchestrator
  loop of `activity-sync.py`.
-/

namespace GarminSync

/-- JSON-like values as manipulated by the Python scripts.  `null` doubles as
Python `None`. -/
inductive JVal where
  | null
  | bool (b : Bool)
  | num (q : ℚ)
  | str (s : String)
  | arr (elems : List JVal)
  | obj (fields : List (String × JVal))

/-- Key lookup in a JSON object's field list (first binding wins, as in a
Python dict whose keys are unique). -/
def lookupField (k : String) : List (String × JVal) → Option JVal
  | [] => none
  | (k', v) :: fs => if k = k' then some v else lookupField k fs

/-- Python `k in r` / `r[k]` access: `some v` iff the key is present
(`v` may be `null`). -/
def JVal.getField : JVal → String → Option JVal
  | .obj fs, k => lookupField k fs
  | _, _ => none

/-- Python `r.get(k)`: the stored value when the key is present, else `None`.
A present `null` value and a missing key are indistinguishable, exactly as in
the scripts' `or`-chains. -/
def getPy (r : JVal) (k : String) : JVal :=
  (r.getField k).getD .null

/-- Python truthiness of a JSON value (`if not x`, `x or y`). -/
def truthy : JVal → Bool
  | .null => false
  | .bool b => b
  | .num q => !(q == 0)
  | .str s => !(s == "")
  | .arr l => !l.isEmpty
  | .obj fs => !fs.isEmpty

/-- Python `is dict` test (`isinstance(x, dict)`). -/
def isObj : JVal → Bool
  | .obj _ => true
  | _ => false

/-- The scripts' pervasive ordered-fallback idiom `a or b or ... or z`:
the first truthy operand, and otherwise the last operand unchanged
(Python `or` returns its second operand whenever the first is falsy). -/
def resolveChain : List JVal → JVal
  | [] => .null
  | [a] => a
  | a :: b :: rest => if truthy a then a else resolveChain (b :: rest)

/-- Ordered fallback over a record and candidate field names, the shape of
`act.get("x") or summary.get("y")`-style extraction
(activity-sync.py lines 580-594, weight-sync.py lines 201-217). -/
def resolveFields (r : JVal) (keys : List String) : JVal :=
  resolveChain (keys.map (getPy r))

/-- Digits-only string to a natural number (`none` on a non-digit). -/
def parseNatDigits (cs : List Char) : Option ℕ :=
  if cs.isEmpty then none
  else if cs.all Char.isDigit then
    some (cs.foldl (fun a c => 10 * a + (c.toNat - 48)) 0)
  else none

/-- Python `float(s)` on a plain decimal string literal (optional sign,
integer part, optional fractional part).  Exotic accepted forms
(exponents, `inf`, surrounding whitespace) are not exercised by the data
shapes the scripts read and are parsed as failures here. -/
def parseDecimal (s : String) : Option ℚ :=
  let cs := s.toList
  let sgn : Bool × List Char :=
    match cs with
    | '-' :: r => (true, r)
    | '+' :: r => (false, r)
    | r => (false, r)
  let ip := sgn.2.takeWhile (fun c => !(c == '.'))
  let rest := sgn.2.dropWhile (fun c => !(c == '.'))
  let mag : Option ℚ :=
    match rest with
    | [] => (parseNatDigits ip).map (fun n => (n : ℚ))
    | _ :: fp =>
      if ip.isEmpty && fp.isEmpty then none
      else
        match (if ip.isEmpty then some 0 else parseNatDigits ip),
              (if fp.isEmpty then some 0 else parseNatDigits fp) with
        | some a, some b => some ((a : ℚ) + (b : ℚ) / ((10 : ℚ) ^ fp.length))
        | _, _ => none
  mag.map (fun q => if sgn.1 then -q else q)

/-- Python `float(x)` on a JSON value: numbers pass through, booleans map to
0/1, numeric strings parse, everything else raises (modelled as `none`).
`float(None)` raises, so `null ↦ none`. -/
def toNum : JVal → Option ℚ
  | .num q => some q
  | .bool b => some (if b then 1 else 0)
  | .str s => parseDecimal s
  | _ => none

/-- Truncation of a rational toward zero, the behaviour of Python
`int(float)`. -/
def truncQ (q : ℚ) : ℤ :=
  if 0 ≤ q then ⌊q⌋ else ⌈q⌉

/-- Python `int(x)`: integers/floats truncate toward zero, booleans map to
0/1, strings must be integer literals, everything else raises (`none`). -/
def toIntPy : JVal → Option ℤ
  | .num q => some (truncQ q)
  | .bool b => some (if b then 1 else 0)
  | .str s =>
    (match s.toList with
     | '-' :: cs => (parseNatDigits cs).map (fun n => -(n : ℤ))
     | '+' :: cs => (parseNatDigits cs).map (fun n => (n : ℤ))
     | cs => (parseNatDigits cs).map (fun n => (n : ℤ)))
  | _ => none

/-- `round(q, n)` to `n` decimal places (ties rounded half-up; Python uses
banker's rounding at exact ties, a difference no claim here exercises). -/
def roundTo (n : ℕ) (q : ℚ) : ℚ :=
  (⌊q * (10 : ℚ) ^ n + 1 / 2⌋ : ℚ) / (10 : ℚ) ^ n

/-- `meter_to_km` (activity-sync.py lines 205-209). -/
def meter_to_km (x : JVal) : Option ℚ :=
  (toNum x).map (fun q => roundTo 3 (q / 1000))

/-- `sec_to_min` (activity-sync.py lines 211-215). -/
def sec_to_min (x : JVal) : Option ℚ :=
  (toNum x).map (fun q => roundTo 2 (q / 60))

/-- `speed_mps_to_pace_min_per_km` (activity-sync.py lines 217-225):
absent on non-numeric, zero or negative speed. -/
def speed_mps_to_pace_min_per_km (x : JVal) : Option ℚ :=
  match toNum x with
  | none => none
  | some s => if s ≤ 0 then none else some (roundTo 2 ((1000 / s) / 60))

end GarminSync

namespace GarminSync

/-- A typed Notion property value, the payload shapes the scripts emit
(`{"number": ...}`, `{"select": {"name": ...}}`, `{"date": {"start": ...}}`,
`{"title": [...]}`, `{"url": ...}`, `{"relation": [...]}`). -/
inductive NProp where
  | number (q : ℚ)
  | select (s : String)
  | title (s : String)
  | date (s : String)
  | url (s : String)
  | relation (pageId : ℕ)
  deriving DecidableEq, Repr

/-- A Notion page's `properties` dict. -/
abbrev PropMap := List (String × NProp)

/-- First-binding lookup in a property map (dict semantics: every name is
bound at most once by the builders below; later `props[name] = v`
assignments are modelled by consing at the head). -/
def plookup (n : String) : PropMap → Option NProp
  | [] => none
  | (m, v) :: p => if n = m then some v else plookup n p

/-- The effect of a Notion `PATCH /v1/pages/{id}` on a page's properties:
names sent in the patch take the patched value, all other stored names are
retained. -/
def pmerge (old new : PropMap) : PropMap :=
  new ++ old.filter (fun kv => (plookup kv.1 new).isNone)

/-- A destination (Notion) record: a store-assigned page id, the unique-key
value it is addressed by (activity id number for activities, calendar date
for sleep and weight), and its properties. -/
structure DRec (κ : Type) where
  pid : ℕ
  key : κ
  props : PropMap

/-- A destination database: the list of its pages. -/
abbrev Dest (κ : Type) := List (DRec κ)

/-- `notion_query_by_activity_id` / `notion_query_by_date`: query the
database with a key-equality filter and `page_size: 1` — at most the first
matching record is returned. -/
def queryByKey [DecidableEq κ] (k : κ) (d : Dest κ) : Option (DRec κ) :=
  d.find? (fun r => r.key = k)

/-- Patch the page with id `pid`: its properties are merged with the patch,
nothing else changes. -/
def patchRec [DecidableEq κ] (pid : ℕ) (props : PropMap) (d : Dest κ) : Dest κ :=
  d.map (fun r => if r.pid = pid then { r with props := pmerge r.props props } else r)

/-- A fresh store-assigned page id. -/
def freshPid {κ : Type} (d : Dest κ) : ℕ :=
  (d.map (fun r => r.pid)).foldr max 0 + 1

/-- The upsert shared by `notion_upsert_activity` (activity-sync.py lines
161-171), `notion_upsert` (sleep-sync.py lines 31-50) and
`notion_upsert_weight` (weight-sync.py lines 69-77): query by key-equality
with page size 1; patch the match when one exists (outcome `"updated"`),
otherwise create a new record under the database (outcome `"created"`). -/
def upsert [DecidableEq κ] (k : κ) (props : PropMap) (d : Dest κ) : String × Dest κ :=
  match queryByKey k d with
  | some r => ("updated", patchRec r.pid props d)
  | none => ("created", d ++ [⟨freshPid d, k, props⟩])

/-- A sequence of serialized upserts (the per-entity loop of a run, or
several consecutive runs). -/
def upsertMany [DecidableEq κ] (ops : List (κ × PropMap)) (d : Dest κ) : Dest κ :=
  ops.foldl (fun d op => (upsert op.1 op.2 d).2) d

/-- Number of destination records holding a given unique key. -/
def countKey [DecidableEq κ] (k : κ) (d : Dest κ) : ℕ :=
  d.countP (fun r => r.key = k)

end GarminSync

namespace GarminSync

lemma plookup_isSome_of_mem (p : PropMap) (kv : String × NProp) (h : kv ∈ p) :
    (plookup kv.1 p).isSome = true := by
  induction p with
  | nil => simp at h
  | cons hd tl ih =>
    by_cases hk : kv.1 = hd.1
    · simp [plookup, hk]
    · rcases List.mem_cons.mp h with h1 | h1
      · exact absurd (congrArg Prod.fst h1) hk
      · simp [plookup, hk, ih h1]

lemma filter_self_none (p : PropMap) :
    p.filter (fun kv => (plookup kv.1 p).isNone) = [] := by
  rw [List.filter_eq_nil_iff]
  intro kv hm
  simp only [Option.isNone_iff_eq_none]
  exact Option.isSome_iff_ne_none.mp (plookup_isSome_of_mem p kv hm)

lemma pmerge_self (p : PropMap) : pmerge p p = p := by
  simp [pmerge, filter_self_none]

lemma pmerge_pmerge (old p : PropMap) : pmerge (pmerge old p) p = pmerge old p := by
  simp [pmerge, List.filter_append, filter_self_none, List.filter_filter]

lemma list_map_id_of {α : Type _} (l : List α) (f : α → α) (h : ∀ a ∈ l, f a = a) :
    l.map f = l := by
  induction l with
  | nil => rfl
  | cons a l ih => simp [h a (by simp), ih (fun b hb => h b (by simp [hb]))]

lemma le_foldr_max (l : List ℕ) (x : ℕ) (h : x ∈ l) : x ≤ l.foldr max 0 := by
  induction l with
  | nil => simp at h
  | cons a l ih =>
    rcases List.mem_cons.mp h with h1 | h1
    · simp [h1, le_max_left]
    · exact le_trans (ih h1) (by simp [le_max_right])

lemma pid_lt_freshPid {κ : Type} (d : Dest κ) (r : DRec κ) (h : r ∈ d) :
    r.pid < freshPid d := by
  have : r.pid ≤ (d.map (fun r => r.pid)).foldr max 0 :=
    le_foldr_max _ _ (List.mem_map_of_mem _ h)
  simp only [freshPid]
  omega

lemma find?_append_of_none {α : Type _} (l1 l2 : List α) (p : α → Bool)
    (h : l1.find? p = none) : (l1 ++ l2).find? p = l2.find? p := by
  induction l1 with
  | nil => rfl
  | cons a l ih =>
    rw [List.cons_append]
    rw [List.find?_cons] at h ⊢
    cases hp : p a with
    | true => simp [hp] at h
    | false => simp only [hp] at h ⊢; exact ih h

lemma find?_map {α β : Type _} (f : α → β) (l : List α) (p : β → Bool) :
    (l.map f).find? p = (l.find? (fun a => p (f a))).map f := by
  induction l with
  | nil => rfl
  | cons a l ih =>
    simp only [List.map_cons, List.find?_cons]
    cases hp : p (f a) <;> simp [hp, ih]

lemma countKey_patchRec {κ : Type} [DecidableEq κ] (k : κ) (pid : ℕ) (props : PropMap)
    (d : Dest κ) : countKey k (patchRec pid props d) = countKey k d := by
  simp only [countKey, patchRec, List.countP_map]
  apply List.countP_congr
  intro r _
  by_cases h : r.pid = pid <;> simp [h, Function.comp]

lemma countKey_upsert {κ : Type} [DecidableEq κ] (k k' : κ) (props : PropMap) (d : Dest κ)
    (h : countKey k' d ≤ 1) : countKey k' (upsert k props d).2 ≤ 1 := by
  unfold upsert
  cases hq : queryByKey k d with
  | some r => simpa [countKey_patchRec] using h
  | none =>
    simp only [countKey, List.countP_append] at h ⊢
    by_cases hk : k' = k
    · subst hk
      have hz : d.countP (fun r => decide (r.key = k')) = 0 := by
        rw [List.countP_eq_zero]
        intro r hr
        simpa using List.find?_eq_none.mp hq r hr
      have hone :
          List.countP (fun r : DRec κ => decide (r.key = k')) [⟨freshPid d, k', props⟩] = 1 := by
        simp
      omega
    · have hzero :
          List.countP (fun r : DRec κ => decide (r.key = k')) [⟨freshPid d, k, props⟩] = 0 := by
        simp
        exact fun hkk => hk hkk.symm
      omega

lemma countKey_upsertMany {κ : Type} [DecidableEq κ] (k' : κ) (ops : List (κ × PropMap))
    (d : Dest κ) (h : countKey k' d ≤ 1) : countKey k' (upsertMany ops d) ≤ 1 := by
  induction ops generalizing d with
  | nil => simpa [upsertMany] using h
  | cons op ops ih =>
    simp only [upsertMany, List.foldl_cons]
    exact ih _ (countKey_upsert op.1 k' op.2 d h)

lemma upsert_updated_iff {κ : Type} [DecidableEq κ] (k : κ) (props : PropMap) (d : Dest κ) :
    (upsert k props d).1 = "updated" ↔ ∃ r ∈ d, r.key = k := by
  unfold upsert
  cases hq : queryByKey k d with
  | some r =>
    constructor
    · intro _
      exact ⟨r, List.mem_of_find?_eq_some hq, by simpa using List.find?_some hq⟩
    · intro _
      rfl
  | none =>
    constructor
    · intro hcontra
      simp at hcontra
    · rintro ⟨r, hr, hk⟩
      have := List.find?_eq_none.mp hq r hr
      simp [hk] at this

end GarminSync

namespace GarminSync

lemma patchRec_twice {κ : Type} [DecidableEq κ] (pid : ℕ) (props : PropMap) (d : Dest κ) :
    patchRec pid props (patchRec pid props d) = patchRec pid props d := by
  unfold patchRec
  rw [List.map_map]
  apply List.map_congr_left
  intro r _
  by_cases h : r.pid = pid
  · simp [Function.comp, h, pmerge_pmerge]
  · simp [Function.comp, h]

lemma upsert_second_time {κ : Type} [DecidableEq κ] (k : κ) (props : PropMap) (d : Dest κ) :
    upsert k props (upsert k props d).2 = ("updated", (upsert k props d).2) := by
  unfold upsert
  cases hq : queryByKey k d with
  | some r =>
    have hkey : ∀ x : DRec κ,
        (if x.pid = r.pid then { x with props := pmerge x.props props } else x).key = x.key := by
      intro x; by_cases h : x.pid = r.pid <;> simp [h]
    have hq2 : queryByKey k (patchRec r.pid props d) =
        some { r with props := pmerge r.props props } := by
      unfold queryByKey patchRec
      rw [find?_map]
      have hfun : (fun a : DRec κ =>
          decide ((if a.pid = r.pid then { a with props := pmerge a.props props } else a).key
            = k)) = (fun a : DRec κ => decide (a.key = k)) := by
        funext a
        rw [hkey a]
      rw [hfun]
      unfold queryByKey at hq
      rw [hq]
      simp
    simp only [hq2]
    simp [patchRec_twice]
  | none =>
    have hq2 : queryByKey k (d ++ [⟨freshPid d, k, props⟩]) =
        some ⟨freshPid d, k, props⟩ := by
      unfold queryByKey at hq ⊢
      rw [find?_append_of_none _ _ _ hq]
      simp
    simp only [hq2]
    have hfix : patchRec (freshPid d) props (d ++ [⟨freshPid d, k, props⟩])
        = d ++ [⟨freshPid d, k, props⟩] := by
      unfold patchRec
      apply list_map_id_of
      intro a ha
      rcases List.mem_append.mp ha with h1 | h1
      · have := pid_lt_freshPid d a h1
        have hne : a.pid ≠ freshPid d := by omega
        simp [hne]
      · have : a = ⟨freshPid d, k, props⟩ := by simpa using h1
        subst this
        simp [pmerge_self]
    rw [hfix]

/-- C1.  The upsert shared by all three scripts first queries the
destination by key-equality with page size 1 (`queryByKey`), patches the
matched record when one exists, and creates a new record only when the
query returns no match; consequently, starting from a destination holding
at most one record with a given unique key, any number of serialized
upserts leaves at most one record with that key, and a single upsert
returns `"updated"` exactly when a match existed and `"created"`
otherwise. -/
theorem upsert_at_most_one_per_key {κ : Type} [DecidableEq κ]
    (k k' : κ) (props : PropMap) (d : Dest κ) (ops : List (κ × PropMap))
    (h : countKey k' d ≤ 1) :
    countKey k' (upsertMany ops d) ≤ 1 ∧
    ((upsert k props d).1 = "updated" ↔ ∃ r ∈ d, r.key = k) ∧
    ((upsert k props d).1 = "created" ↔ ¬∃ r ∈ d, r.key = k) := by
  refine ⟨countKey_upsertMany k' ops d h, upsert_updated_iff k props d, ?_⟩
  have hiff := upsert_updated_iff k props d
  unfold upsert at hiff ⊢
  cases hq : queryByKey k d with
  | some r =>
    rw [hq] at hiff
    constructor
    · intro hcontra; simp at hcontra
    · intro hcontra; exact absurd (hiff.mp rfl) hcontra
  | none =>
    rw [hq] at hiff
    constructor
    · intro _
      intro hex
      have : ("updated" : String) = "updated" := rfl
      exact absurd (hiff.mpr hex) (by simp)
    · intro _; rfl

/-- Witness for `upsert_at_most_one_per_key` at a concrete destination:
one record keyed by activity id 123; upserting id 123 and then id 456
twice keeps every key count at most 1, and the outcomes are as claimed. -/
theorem upsert_at_most_one_per_key_witness :
    countKey (123 : ℤ) [DRec.mk 1 (123 : ℤ) []] ≤ 1 ∧
      (countKey (123 : ℤ) (upsertMany [((123 : ℤ), []), ((456 : ℤ), []), ((456 : ℤ), [])]
        [DRec.mk 1 (123 : ℤ) []]) ≤ 1 ∧
      ((upsert (123 : ℤ) [] [DRec.mk 1 (123 : ℤ) []]).1 = "updated" ↔
        ∃ r ∈ [DRec.mk 1 (123 : ℤ) []], r.key = (123 : ℤ))) := by
  have h0 : countKey (123 : ℤ) [DRec.mk 1 (123 : ℤ) []] ≤ 1 := by decide
  have h := upsert_at_most_one_per_key (123 : ℤ) (123 : ℤ) []
    [DRec.mk 1 (123 : ℤ) []] [((123 : ℤ), []), ((456 : ℤ), []), ((456 : ℤ), [])] h0
  exact ⟨h0, h.1, h.2.1⟩

/-- C2.  Idempotency of the upsert: repeating an upsert with the same
unique key and the same property values (the situation of a second run
over an unchanged source window) finds the record written the first time,
returns outcome `"updated"` (never `"created"` — no new record), and
leaves the destination state exactly as it was after the first upsert. -/
theorem upsert_idempotent {κ : Type} [DecidableEq κ] (k : κ) (props : PropMap) (d : Dest κ) :
    upsert k props (upsert k props d).2 = ("updated", (upsert k props d).2) :=
  upsert_second_time k props d

end GarminSync

namespace GarminSync

/-- The five per-band upper bounds threaded through the zone bucketizer. -/
abbrev Bounds := ℚ × ℚ × ℚ × ℚ × ℚ

/-- Seconds per zone Z1..Z5. -/
abbrev Zone5 := ℤ × ℤ × ℤ × ℤ × ℤ

/-- `get_hr_zone_thresholds` defaults (activity-sync.py lines 264-271). -/
def hrZoneThresholds : Bounds := (131, 151, 165, 171, 999)

/-- `get_power_zone_thresholds` defaults (activity-sync.py lines 273-282). -/
def powerZoneThresholds : Bounds := (320, 356, 410, 9999, 999999)

/-- The band a numeric sample lands in, following the `if/elif` chain of
`bucket_zones_seconds` (activity-sync.py lines 301-312): closed upper
bounds, and both the `x <= z5_max` branch and the final `else` feed the top
band, so everything above the fourth threshold accumulates in Z5. -/
def bandOf (bs : Bounds) (x : ℚ) : Fin 5 :=
  if x ≤ bs.1 then 0
  else if x ≤ bs.2.1 then 1
  else if x ≤ bs.2.2.1 then 2
  else if x ≤ bs.2.2.2.1 then 3
  else if x ≤ bs.2.2.2.2 then 4
  else 4

/-- Add one second to the given band of a zone tuple. -/
def bumpZone (t : Zone5) : Fin 5 → Zone5
  | 0 => (t.1 + 1, t.2.1, t.2.2.1, t.2.2.2.1, t.2.2.2.2)
  | 1 => (t.1, t.2.1 + 1, t.2.2.1, t.2.2.2.1, t.2.2.2.2)
  | 2 => (t.1, t.2.1, t.2.2.1 + 1, t.2.2.2.1, t.2.2.2.2)
  | 3 => (t.1, t.2.1, t.2.2.1, t.2.2.2.1 + 1, t.2.2.2.2)
  | 4 => (t.1, t.2.1, t.2.2.1, t.2.2.2.1, t.2.2.2.2 + 1)

/-- One loop iteration of `bucket_zones_seconds`: `None` samples are
skipped, unparseable samples are skipped, numeric samples bump exactly one
band. -/
def bucketStep (bs : Bounds) (t : Zone5) (v : JVal) : Zone5 :=
  match toNum v with
  | none => t
  | some x => bumpZone t (bandOf bs x)

/-- `bucket_zones_seconds` (activity-sync.py lines 284-313).  The empty
input short-circuit of the source returns the same all-zero tuple the fold
produces. -/
def bucket_zones_seconds (values : List JVal) (bs : Bounds) : Zone5 :=
  values.foldl (bucketStep bs) (0, 0, 0, 0, 0)

/-- Valid samples: non-null values that parse as numeric (Python
`float(v)` succeeds; `float(None)` never does). -/
def validSample (v : JVal) : Bool := (toNum v).isSome

/-- Number of valid samples landing in band `i`. -/
def bandCount (bs : Bounds) (values : List JVal) (i : Fin 5) : ℕ :=
  values.countP (fun v =>
    match toNum v with
    | none => false
    | some x => bandOf bs x = i)

lemma bucket_fold_counts (bs : Bounds) (values : List JVal) (t : Zone5) :
    values.foldl (bucketStep bs) t =
      (t.1 + bandCount bs values 0, t.2.1 + bandCount bs values 1,
       t.2.2.1 + bandCount bs values 2, t.2.2.2.1 + bandCount bs values 3,
       t.2.2.2.2 + bandCount bs values 4) := by
  induction values generalizing t with
  | nil => simp [bandCount]
  | cons v vs ih =>
    simp only [List.foldl_cons]
    rw [ih]
    cases hv : toNum v with
    | none =>
      simp [bandCount, List.countP_cons, bucketStep, hv]
    | some x =>
      have hcount : ∀ i : Fin 5, bandCount bs (v :: vs) i =
          bandCount bs vs i + (if bandOf bs x = i then 1 else 0) := by
        intro i
        simp [bandCount, List.countP_cons, hv]
      simp only [bucketStep, hv, hcount]
      rcases hband : bandOf bs x with ⟨b, hb⟩
      interval_cases b <;>
        simp_all [bumpZone, Fin.ext_iff] <;> omega

lemma bucket_eq_bandCounts (bs : Bounds) (values : List JVal) :
    bucket_zones_seconds values bs =
      ((bandCount bs values 0 : ℤ), (bandCount bs values 1 : ℤ),
       (bandCount bs values 2 : ℤ), (bandCount bs values 3 : ℤ),
       (bandCount bs values 4 : ℤ)) := by
  unfold bucket_zones_seconds
  rw [bucket_fold_counts]
  simp

lemma sum_ite_band (j : Fin 5) :
    ((if j = 0 then 1 else 0) + (if j = 1 then 1 else 0) + (if j = 2 then 1 else 0) +
      (if j = 3 then 1 else 0) + (if j = 4 then 1 else 0) : ℕ) = 1 := by
  fin_cases j <;> decide

lemma bandCount_cons (bs : Bounds) (v : JVal) (vs : List JVal) (x : ℚ)
    (hv : toNum v = some x) (i : Fin 5) :
    bandCount bs (v :: vs) i = bandCount bs vs i + (if bandOf bs x = i then 1 else 0) := by
  simp [bandCount, List.countP_cons, hv]

lemma bandCount_sum (bs : Bounds) (values : List JVal) :
    bandCount bs values 0 + bandCount bs values 1 + bandCount bs values 2 +
      bandCount bs values 3 + bandCount bs values 4 =
      values.countP validSample := by
  induction values with
  | nil => simp [bandCount]
  | cons v vs ih =>
    cases hv : toNum v with
    | none =>
      have hcount : ∀ i : Fin 5, bandCount bs (v :: vs) i = bandCount bs vs i := by
        intro i
        simp [bandCount, List.countP_cons, hv]
      have hvalid : (v :: vs).countP validSample = vs.countP validSample := by
        simp [List.countP_cons, validSample, hv]
      rw [hcount 0, hcount 1, hcount 2, hcount 3, hcount 4, hvalid, ih]
    | some x =>
      have hcount := bandCount_cons bs v vs x hv
      have hvalid : (v :: vs).countP validSample = vs.countP validSample + 1 := by
        simp [List.countP_cons, validSample, hv]
      rw [hcount 0, hcount 1, hcount 2, hcount 3, hcount 4, hvalid]
      have hsum := sum_ite_band (bandOf bs x)
      omega

end GarminSync

namespace GarminSync

/-- C9.  `bucket_zones_seconds`: for every sample list (entries possibly
null or non-numeric) and ascending upper-bound thresholds, the five counts
are the per-band tallies of the valid samples (each valid sample lands in
exactly one band via `bandOf`), they are non-negative, their sum is
exactly the number of non-null samples that parse as numeric, band
membership uses closed (inclusive) upper bounds, and every value above the
fourth threshold is absorbed into the top band. -/
theorem bucket_zones_conservation (values : List JVal) (z1 z2 z3 z4 z5 : ℚ)
    (hasc : z1 ≤ z2 ∧ z2 ≤ z3 ∧ z3 ≤ z4 ∧ z4 ≤ z5) :
    bucket_zones_seconds values (z1, z2, z3, z4, z5) =
      ((bandCount (z1, z2, z3, z4, z5) values 0 : ℤ),
       (bandCount (z1, z2, z3, z4, z5) values 1 : ℤ),
       (bandCount (z1, z2, z3, z4, z5) values 2 : ℤ),
       (bandCount (z1, z2, z3, z4, z5) values 3 : ℤ),
       (bandCount (z1, z2, z3, z4, z5) values 4 : ℤ)) ∧
    (bucket_zones_seconds values (z1, z2, z3, z4, z5)).1 +
      (bucket_zones_seconds values (z1, z2, z3, z4, z5)).2.1 +
      (bucket_zones_seconds values (z1, z2, z3, z4, z5)).2.2.1 +
      (bucket_zones_seconds values (z1, z2, z3, z4, z5)).2.2.2.1 +
      (bucket_zones_seconds values (z1, z2, z3, z4, z5)).2.2.2.2 =
      (values.countP validSample : ℤ) ∧
    (0 ≤ (bucket_zones_seconds values (z1, z2, z3, z4, z5)).1 ∧
     0 ≤ (bucket_zones_seconds values (z1, z2, z3, z4, z5)).2.1 ∧
     0 ≤ (bucket_zones_seconds values (z1, z2, z3, z4, z5)).2.2.1 ∧
     0 ≤ (bucket_zones_seconds values (z1, z2, z3, z4, z5)).2.2.2.1 ∧
     0 ≤ (bucket_zones_seconds values (z1, z2, z3, z4, z5)).2.2.2.2) ∧
    (∀ x : ℚ,
      (x ≤ z1 → bandOf (z1, z2, z3, z4, z5) x = 0) ∧
      (z1 < x → x ≤ z2 → bandOf (z1, z2, z3, z4, z5) x = 1) ∧
      (z2 < x → x ≤ z3 → bandOf (z1, z2, z3, z4, z5) x = 2) ∧
      (z3 < x → x ≤ z4 → bandOf (z1, z2, z3, z4, z5) x = 3) ∧
      (z4 < x → bandOf (z1, z2, z3, z4, z5) x = 4)) := by
  obtain ⟨h12, h23, h34, h45⟩ := hasc
  have heq := bucket_eq_bandCounts (z1, z2, z3, z4, z5) values
  have hsum := bandCount_sum (z1, z2, z3, z4, z5) values
  refine ⟨heq, ?_, ?_, ?_⟩
  · rw [heq]
    push_cast
    omega
  · rw [heq]
    refine ⟨?_, ?_, ?_, ?_, ?_⟩ <;> positivity
  · intro x
    refine ⟨?_, ?_, ?_, ?_, ?_⟩
    · intro h1
      simp [bandOf, h1]
    · intro h1 h2
      rw [bandOf]
      rw [if_neg (by simpa using not_le.mpr h1), if_pos (by simpa using h2)]
    · intro h2 h3
      rw [bandOf]
      rw [if_neg (by simp; linarith), if_neg (by simpa using not_le.mpr h2),
        if_pos (by simpa using h3)]
    · intro h3 h4
      rw [bandOf]
      rw [if_neg (by simp; linarith), if_neg (by simp; linarith),
        if_neg (by simpa using not_le.mpr h3), if_pos (by simpa using h4)]
    · intro h4
      rw [bandOf]
      rw [if_neg (by simp; linarith), if_neg (by simp; linarith),
        if_neg (by simp; linarith), if_neg (by simpa using not_le.mpr h4)]
      by_cases h5 : x ≤ z5 <;> simp [h5]

/-- Witness for `bucket_zones_conservation`: six samples of which four are
valid (one null, one unparseable string) against the default heart-rate
thresholds; the breakdown sums to 4. -/
theorem bucket_zones_conservation_witness :
    (bucket_zones_seconds
        [JVal.num 100, JVal.null, JVal.str "abc", JVal.num 140, JVal.num 200, JVal.num 1500]
        (131, 151, 165, 171, 999)).1 +
      (bucket_zones_seconds
        [JVal.num 100, JVal.null, JVal.str "abc", JVal.num 140, JVal.num 200, JVal.num 1500]
        (131, 151, 165, 171, 999)).2.1 +
      (bucket_zones_seconds
        [JVal.num 100, JVal.null, JVal.str "abc", JVal.num 140, JVal.num 200, JVal.num 1500]
        (131, 151, 165, 171, 999)).2.2.1 +
      (bucket_zones_seconds
        [JVal.num 100, JVal.null, JVal.str "abc", JVal.num 140, JVal.num 200, JVal.num 1500]
        (131, 151, 165, 171, 999)).2.2.2.1 +
      (bucket_zones_seconds
        [JVal.num 100, JVal.null, JVal.str "abc", JVal.num 140, JVal.num 200, JVal.num 1500]
        (131, 151, 165, 171, 999)).2.2.2.2 =
      (([JVal.num 100, JVal.null, JVal.str "abc", JVal.num 140, JVal.num 200,
         JVal.num 1500].countP validSample : ℕ) : ℤ) ∧
    ([JVal.num 100, JVal.null, JVal.str "abc", JVal.num 140, JVal.num 200,
      JVal.num 1500].countP validSample : ℕ) = 4 :=
  ⟨(bucket_zones_conservation
      [JVal.num 100, JVal.null, JVal.str "abc", JVal.num 140, JVal.num 200, JVal.num 1500]
      131 151 165 171 999 (by norm_num)).2.1,
   by decide⟩

end GarminSync

namespace GarminSync

/-- The `or`-chain over candidate keys for the zones list in
`parse_time_in_zone_seconds` (activity-sync.py lines 389-397), ending in
the literal `[]`. -/
def zonesListOf (z : JVal) : JVal :=
  resolveChain [getPy z "timeInHRZone", getPy z "timeInHeartRateZones",
    getPy z "timeInPowerZone", getPy z "timeInPowerZones",
    getPy z "zones", getPy z "zoneTimes", JVal.arr []]

/-- `zn = z.get("zoneNumber") or z.get("zone") or z.get("zoneNum") or
z.get("number")` followed by `int(zn)` (activity-sync.py lines 405, 408). -/
def znOf (z : JVal) : Option ℤ :=
  toIntPy (resolveChain
    [getPy z "zoneNumber", getPy z "zone", getPy z "zoneNum", getPy z "number"])

/-- `sec = z.get("seconds") or z.get("secs") or z.get("value") or
z.get("timeSeconds")` followed by `int(float(sec))`
(activity-sync.py lines 406, 409). -/
def secOf (z : JVal) : Option ℤ :=
  (toNum (resolveChain
    [getPy z "seconds", getPy z "secs", getPy z "value", getPy z "timeSeconds"])).map truncQ

/-- `out[zn - 1] = sec` for `1 <= zn <= 5`: assignment, not accumulation. -/
def setZone (t : Zone5) (n : ℤ) (s : ℤ) : Zone5 :=
  if n = 1 then (s, t.2.1, t.2.2.1, t.2.2.2.1, t.2.2.2.2)
  else if n = 2 then (t.1, s, t.2.2.1, t.2.2.2.1, t.2.2.2.2)
  else if n = 3 then (t.1, t.2.1, s, t.2.2.2.1, t.2.2.2.2)
  else if n = 4 then (t.1, t.2.1, t.2.2.1, s, t.2.2.2.2)
  else (t.1, t.2.1, t.2.2.1, t.2.2.2.1, s)

/-- One iteration of the entry loop of `parse_time_in_zone_seconds`
(activity-sync.py lines 402-413): non-dict entries and entries whose zone
number or seconds fail to parse are skipped; zone numbers outside 1..5 are
ignored. -/
def zoneEntryStep (t : Zone5) (z : JVal) : Zone5 :=
  if isObj z then
    match znOf z, secOf z with
    | some n, some s => if 1 ≤ n ∧ n ≤ 5 then setZone t n s else t
    | _, _ => t
  else t

/-- `parse_time_in_zone_seconds` (activity-sync.py lines 382-414): `None`
unless the argument is a dict holding a non-empty zones list under one of
the candidate keys; otherwise the entry loop starting from the all-zero
tuple. -/
def parse_time_in_zone_seconds (zObj : JVal) : Option Zone5 :=
  if isObj zObj then
    match zonesListOf zObj with
    | .arr zs => if zs.isEmpty then none else some (zs.foldl zoneEntryStep (0, 0, 0, 0, 0))
    | _ => none
  else none

/-- One `heartRateDTOs` entry of `extract_hr_stream` (activity-sync.py
lines 323-332): non-dict entries are dropped, entries whose
`heartRate`/`value` fails `int()` contribute a `None` placeholder. -/
def hrEntry (p : JVal) : Option JVal :=
  if isObj p then
    some (match toIntPy (match p.getField "heartRate" with
                         | some v => v
                         | none => getPy p "value") with
          | some n => JVal.num (n : ℚ)
          | none => JVal.null)
  else none

/-- `extract_hr_stream` (activity-sync.py lines 318-332). -/
def extract_hr_stream (details : JVal) : List JVal :=
  match getPy details "heartRateDTOs" with
  | .arr l => l.filterMap hrEntry
  | _ => []

/-- The heart-rate time-in-zone selection of `main` (activity-sync.py
lines 633-647): the provider aggregate when it parses, else bucketing of
the raw stream when non-empty, else the all-zero tuple. -/
def hrZonesOf (zObj details : JVal) (bs : Bounds) : Zone5 :=
  match parse_time_in_zone_seconds zObj with
  | some z => z
  | none =>
    match extract_hr_stream details with
    | [] => (0, 0, 0, 0, 0)
    | v :: vs => bucket_zones_seconds (v :: vs) bs

/-- A zones-list entry that actually lands in the output: a dict whose
zone number and seconds both parse, the number within 1..5. -/
def usableZoneEntry (z : JVal) : Bool :=
  isObj z &&
    (match znOf z, secOf z with
     | some n, some _ => decide (1 ≤ n ∧ n ≤ 5)
     | _, _ => false)

lemma zoneEntryStep_unusable (t : Zone5) (z : JVal) (h : usableZoneEntry z = false) :
    zoneEntryStep t z = t := by
  unfold usableZoneEntry at h
  unfold zoneEntryStep
  cases hobj : isObj z with
  | false => simp [hobj]
  | true =>
    simp only [hobj, Bool.true_and, if_true]
    cases hzn : znOf z with
    | none => simp
    | some n =>
      cases hsec : secOf z with
      | none => simp
      | some s =>
        rw [hzn, hsec] at h
        simp at h
        have hnot : ¬(1 ≤ n ∧ n ≤ 5) := fun hc => absurd (h hobj hc.1) (by omega)
        simp [hzn, hsec, hnot]

lemma fold_zoneEntryStep_unusable (zs : List JVal) (t : Zone5)
    (h : ∀ z ∈ zs, usableZoneEntry z = false) :
    zs.foldl zoneEntryStep t = t := by
  induction zs generalizing t with
  | nil => rfl
  | cons z zs ih =>
    rw [List.foldl_cons, zoneEntryStep_unusable t z (h z (by simp))]
    exact ih t (fun z' hz' => h z' (by simp [hz']))

/-- C10.  When the provider's pre-aggregated zone object is a dict whose
zones list is non-empty but no entry yields both a parseable zone number
in 1..5 and a parseable seconds value, `parse_time_in_zone_seconds`
returns the all-zero breakdown rather than `None`; the caller then treats
that aggregate as authoritative — it never falls back to raw-sample
bucketing, whatever the raw stream holds — and records zero seconds in
every band. -/
theorem parse_zones_all_unusable_yields_zero (zObj details : JVal) (bs : Bounds)
    (zs : List JVal) (hobj : isObj zObj = true) (hzl : zonesListOf zObj = JVal.arr zs)
    (hne : zs ≠ []) (hun : ∀ z ∈ zs, usableZoneEntry z = false) :
    parse_time_in_zone_seconds zObj = some (0, 0, 0, 0, 0) ∧
    hrZonesOf zObj details bs = (0, 0, 0, 0, 0) := by
  have hemp : zs.isEmpty = false := by
    cases zs with
    | nil => exact absurd rfl hne
    | cons a l => rfl
  have hp : parse_time_in_zone_seconds zObj = some (0, 0, 0, 0, 0) := by
    unfold parse_time_in_zone_seconds
    rw [hzl]
    simp [hobj, hemp, fold_zoneEntryStep_unusable zs _ hun]
  refine ⟨hp, ?_⟩
  unfold hrZonesOf
  rw [hp]

/-- Witness for `parse_zones_all_unusable_yields_zero`: a zones object
whose single entry has zone number 9 (out of range), while the raw stream
holds a sample at heart rate 150 that bucketing would have counted;
the result is still the all-zero breakdown. -/
theorem parse_zones_all_unusable_yields_zero_witness :
    parse_time_in_zone_seconds
        (JVal.obj [("zones",
          JVal.arr [JVal.obj [("zoneNumber", JVal.num 9), ("seconds", JVal.num 120)]])]) =
      some (0, 0, 0, 0, 0) ∧
    hrZonesOf
        (JVal.obj [("zones",
          JVal.arr [JVal.obj [("zoneNumber", JVal.num 9), ("seconds", JVal.num 120)]])])
        (JVal.obj [("heartRateDTOs", JVal.arr [JVal.obj [("heartRate", JVal.num 150)]])])
        hrZoneThresholds = (0, 0, 0, 0, 0) :=
  parse_zones_all_unusable_yields_zero
    (JVal.obj [("zones",
      JVal.arr [JVal.obj [("zoneNumber", JVal.num 9), ("seconds", JVal.num 120)]])])
    (JVal.obj [("heartRateDTOs", JVal.arr [JVal.obj [("heartRate", JVal.num 150)]])])
    hrZoneThresholds
    [JVal.obj [("zoneNumber", JVal.num 9), ("seconds", JVal.num 120)]]
    rfl rfl (by simp)
    (by
      intro z hz
      simp only [List.mem_singleton] at hz
      subst hz
      decide)

end GarminSync

namespace GarminSync

lemma resolveChain_of_find? (cands : List JVal) (x : JVal)
    (h : cands.find? truthy = some x) : resolveChain cands = x := by
  induction cands with
  | nil => simp at h
  | cons a rest ih =>
    cases rest with
    | nil =>
      rw [List.find?_cons] at h
      cases ht : truthy a with
      | true => simp [ht] at h; simpa [resolveChain] using h
      | false => simp [ht] at h
    | cons b rest' =>
      rw [List.find?_cons] at h
      cases ht : truthy a with
      | true => simp [ht] at h; simpa [resolveChain, ht] using h
      | false =>
        simp only [ht] at h
        rw [resolveChain, if_neg (by simp [ht])]
        exact ih h

lemma resolveChain_of_all_falsy (cands : List JVal)
    (h : ∀ x ∈ cands, truthy x = false) :
    resolveChain cands = cands.getLastD JVal.null := by
  induction cands with
  | nil => rfl
  | cons a rest ih =>
    cases rest with
    | nil => rfl
    | cons b rest' =>
      rw [resolveChain, if_neg (by simp [h a (by simp)])]
      rw [ih (fun y hy => h y (by simp [hy]))]
      rfl

lemma getLastD_null_of_all_null (cands : List JVal)
    (h : ∀ x ∈ cands, x = JVal.null) : cands.getLastD JVal.null = JVal.null := by
  induction cands with
  | nil => rfl
  | cons a rest ih =>
    cases rest with
    | nil => exact h a (by simp)
    | cons b rest' =>
      rw [show (a :: b :: rest').getLastD JVal.null = (b :: rest').getLastD JVal.null from rfl]
      exact ih (fun y hy => h y (by simp [hy]))

/-- C4 counterexample.  A record whose first candidate field is present
with value `0`: the `or`-chain resolver of activity-sync.py lines 580-594
and weight-sync.py lines 201-217 skips the present `0` (falsy in Python)
and returns the second candidate's value `5`, where the claim demands that
the present value `0` be returned. -/
theorem resolver_skips_present_zero :
    JVal.getField (JVal.obj [("distance", JVal.num 0), ("totalDistance", JVal.num 5)])
        "distance" = some (JVal.num 0) ∧
    resolveFields (JVal.obj [("distance", JVal.num 0), ("totalDistance", JVal.num 5)])
        ["distance", "totalDistance"] = JVal.num 5 ∧
    resolveFields (JVal.obj [("distance", JVal.num 0), ("totalDistance", JVal.num 5)])
        ["distance", "totalDistance"] ≠ JVal.num 0 := by
  refine ⟨rfl, rfl, fun h => ?_⟩
  have h50 : JVal.num 5 = JVal.num 0 := by
    calc JVal.num 5
        = resolveFields (JVal.obj [("distance", JVal.num 0), ("totalDistance", JVal.num 5)])
            ["distance", "totalDistance"] := rfl
      _ = JVal.num 0 := h
  have h5 : (5 : ℚ) = 0 := by injection h50
  norm_num at h5

/-- C4 (amended).  The ordered-fallback resolver returns the value of the
first candidate that resolves to a *truthy* value (non-absent, non-zero,
non-empty); a present falsy value such as `0` does not stop resolution.
When no candidate is truthy the result is the last candidate's value
unchanged — in particular `null` (the defined "no value", never an error)
when every candidate is absent.  When the first candidate is absent and
the second present, the second candidate's value is returned. -/
theorem resolveChain_ordered_fallback (cands : List JVal) :
    (∀ x, cands.find? truthy = some x → resolveChain cands = x) ∧
    ((∀ x ∈ cands, truthy x = false) → resolveChain cands = cands.getLastD JVal.null) ∧
    ((∀ x ∈ cands, x = JVal.null) → resolveChain cands = JVal.null) ∧
    (∀ (r : JVal) (k1 k2 : String), r.getField k1 = none →
      resolveFields r [k1, k2] = getPy r k2) := by
  refine ⟨fun x h => resolveChain_of_find? cands x h,
    fun h => resolveChain_of_all_falsy cands h, fun h => ?_, fun r k1 k2 h => ?_⟩
  · rw [resolveChain_of_all_falsy cands (fun y hy => by rw [h y hy]; rfl)]
    exact getLastD_null_of_all_null cands h
  · have h1 : getPy r k1 = JVal.null := by simp [getPy, h]
    simp [resolveFields, resolveChain, h1, truthy]

/-- Witness for `resolveChain_ordered_fallback`: an absent first candidate
followed by a present `7` resolves to `7`, and a record holding only the
second candidate key resolves to that key's value. -/
theorem resolveChain_ordered_fallback_witness :
    resolveChain [JVal.null, JVal.num 7] = JVal.num 7 ∧
    resolveFields (JVal.obj [("totalDuration", JVal.num 3)]) ["duration", "totalDuration"]
      = JVal.num 3 :=
  ⟨(resolveChain_ordered_fallback [JVal.null, JVal.num 7]).1 (JVal.num 7) rfl,
   (resolveChain_ordered_fallback [JVal.null, JVal.num 3]).2.2.2
     (JVal.obj [("totalDuration", JVal.num 3)]) "duration" "totalDuration" rfl⟩

end GarminSync

namespace GarminSync

/-- `NOTION_MAX_RETRIES` default (activity-sync.py line 22). -/
def NOTION_MAX_RETRIES : ℕ := 6

/-- What one attempt of `notion_request` observes from the network: an
HTTP response with a status code and body, or a raised transport exception
(timeout, connection error). -/
inductive HResp where
  | status (code : ℕ) (body : String)
  | exn (msg : String)

/-- The observable outcome of `notion_request`: its result, the number of
attempts actually made (responses consumed), and the backoff sleeps
performed between attempts. -/
structure ReqOutcome where
  result : Except String String
  attempts : ℕ
  waits : List ℚ

/-- The backoff of attempt `i`: `min(20, (2 ** i) + 0.3)` (activity-sync.py
lines 139 and 148 — the same formula on both the transient-status path and
the exception path). -/
def backoffWait (i : ℕ) : ℚ := min 20 ((2 : ℚ) ^ i + 3 / 10)

/-- The retry loop of `notion_request` (activity-sync.py lines 118-151),
one recursion step per `for i in range(NOTION_MAX_RETRIES)` iteration.
A status `< 300` returns the body.  A status in `{429, 500, 502, 503,
504}` records the error text, sleeps the backoff and continues.  Any
other status raises `RuntimeError` — but the `raise` sits inside the
`try`, so the function's own `except Exception` clause catches it, records
it as `last_err`, sleeps the same backoff and continues: non-transient
responses are retried exactly like transient ones.  Transport exceptions
take the same `except` path.  Exhausting the loop raises
`RuntimeError("Notion request failed after retries: ...")`. -/
def notionRequestGo : ℕ → ℕ → List HResp → Option String → ReqOutcome
  | 0, _, _, last =>
    ⟨.error ("Notion request failed after retries: " ++ last.getD "None"), 0, []⟩
  | fuel + 1, i, [], _last =>
    let rest := notionRequestGo fuel (i + 1) [] (some "no response")
    ⟨rest.result, rest.attempts + 1, backoffWait i :: rest.waits⟩
  | fuel + 1, i, resp :: rs, _last =>
    match resp with
    | .status c body =>
      if c < 300 then ⟨.ok body, 1, []⟩
      else
        let msg :=
          if c = 429 ∨ c = 500 ∨ c = 502 ∨ c = 503 ∨ c = 504 then
            toString c ++ ": " ++ body
          else
            "Notion request failed " ++ toString c ++ ": " ++ body
        let rest := notionRequestGo fuel (i + 1) rs (some msg)
        ⟨rest.result, rest.attempts + 1, backoffWait i :: rest.waits⟩
    | .exn m =>
      let rest := notionRequestGo fuel (i + 1) rs (some m)
      ⟨rest.result, rest.attempts + 1, backoffWait i :: rest.waits⟩

/-- `notion_request` against a stream of per-attempt network responses. -/
def notionRequest (rs : List HResp) : ReqOutcome :=
  notionRequestGo NOTION_MAX_RETRIES 0 rs none

/-- C3 (code bug).  A request answered by HTTP 400 (a non-transient client
error) on every attempt: `notion_request` makes all 6 attempts, sleeping
the capped exponential backoff 6 times, before failing — it does not abort
after the first non-transient response.  The `raise RuntimeError` for
non-retryable statuses is inside the `try`, so the function's own broad
`except Exception` catches it and retries, contradicting the claim and the
function's own docstring ("basic retry/backoff for 429/5xx"). -/
theorem notionRequest_retries_non_transient :
    (notionRequest (List.replicate 6 (HResp.status 400 "bad request"))).attempts = 6 ∧
    (notionRequest (List.replicate 6 (HResp.status 400 "bad request"))).waits =
      [backoffWait 0, backoffWait 1, backoffWait 2, backoffWait 3, backoffWait 4,
       backoffWait 5] ∧
    (notionRequest (List.replicate 6 (HResp.status 400 "bad request"))).result =
      .error ("Notion request failed after retries: " ++
        "Notion request failed 400: bad request") := by
  refine ⟨rfl, rfl, rfl⟩

end GarminSync

namespace GarminSync

/-- `maybe_set` of weight-sync.py (lines 225-228) and `maybe_number` of
activity-sync.py applied to an already-numeric value: write the property
only when a value is present. -/
def maybeSet (p : PropMap) (n : String) (v : Option ℚ) : PropMap :=
  match v with
  | none => p
  | some q => (n, NProp.number q) :: p

/-- `maybe_number` (activity-sync.py lines 227-233) on a raw JSON value:
`float(val)` must succeed, otherwise the property is silently skipped. -/
def maybeNumJ (p : PropMap) (n : String) (v : JVal) : PropMap :=
  maybeSet p n (toNum v)

/-- Python `str(x)` as far as the scripts exercise it (select labels are
strings; the compound renderings are placeholders never reached on the
data shapes written). -/
def pyStr : JVal → String
  | .str s => s
  | .num q => toString q
  | .bool b => if b then "True" else "False"
  | .null => "None"
  | .arr _ => "<list>"
  | .obj _ => "<dict>"

/-- `maybe_select` (activity-sync.py lines 235-238): only `None` is
skipped; any other value is written as a select label via `str`. -/
def maybeSelect (p : PropMap) (n : String) (v : JVal) : PropMap :=
  match v with
  | .null => p
  | v => (n, NProp.select (pyStr v)) :: p

/-- `maybe_url` (activity-sync.py lines 240-243): falsy (empty) URLs are
skipped. -/
def maybeUrl (p : PropMap) (n : String) (u : String) : PropMap :=
  if u = "" then p else (n, NProp.url u) :: p

lemma plookup_cons_ne (n m : String) (h : ¬n = m) (v : NProp) (p : PropMap) :
    plookup n ((m, v) :: p) = plookup n p := by
  simp [plookup, h]

lemma plookup_cons_self (n : String) (v : NProp) (p : PropMap) :
    plookup n ((n, v) :: p) = some v := by
  simp [plookup]

lemma plookup_maybeSet_ne (n m : String) (h : ¬n = m) (p : PropMap) (v : Option ℚ) :
    plookup n (maybeSet p m v) = plookup n p := by
  cases v <;> simp [maybeSet, plookup, h]

lemma plookup_maybeSet_self (n : String) (p : PropMap) (v : Option ℚ)
    (h : plookup n p = none) :
    plookup n (maybeSet p n v) = v.map NProp.number := by
  cases v <;> simp [maybeSet, plookup, h]

lemma plookup_maybeNumJ_ne (n m : String) (h : ¬n = m) (p : PropMap) (v : JVal) :
    plookup n (maybeNumJ p m v) = plookup n p :=
  plookup_maybeSet_ne n m h p (toNum v)

lemma plookup_maybeNumJ_self (n : String) (p : PropMap) (v : JVal)
    (h : plookup n p = none) :
    plookup n (maybeNumJ p n v) = (toNum v).map NProp.number :=
  plookup_maybeSet_self n p (toNum v) h

lemma plookup_maybeSelect_ne (n m : String) (h : ¬n = m) (p : PropMap) (v : JVal) :
    plookup n (maybeSelect p m v) = plookup n p := by
  cases v <;> simp [maybeSelect, plookup, h]

lemma plookup_maybeSelect_self (n : String) (p : PropMap) (v : JVal)
    (h : plookup n p = none) :
    plookup n (maybeSelect p n v) =
      match v with
      | JVal.null => none
      | v => some (NProp.select (pyStr v)) := by
  cases v <;> simp [maybeSelect, plookup, h]

lemma plookup_maybeUrl_ne (n m : String) (h : ¬n = m) (p : PropMap) (u : String) :
    plookup n (maybeUrl p m u) = plookup n p := by
  by_cases hu : u = "" <;> simp [maybeUrl, hu, plookup, h]

lemma plookup_maybeUrl_self (n : String) (p : PropMap) (u : String)
    (h : plookup n p = none) :
    plookup n (maybeUrl p n u) = if u = "" then none else some (NProp.url u) := by
  by_cases hu : u = "" <;> simp [maybeUrl, hu, plookup, h]

end GarminSync

namespace GarminSync

/-- Numeric value of a decimal digit character. -/
def digitVal (c : Char) : ℕ := c.toNat - 48

/-- Parse a strict `YYYY-MM-DD` string into the order-preserving encoding
`y * 10000 + m * 100 + d` (months 1..12, days 1..31, as `date.fromisoformat`
validates). -/
def parseIso10 (s : String) : Option ℕ :=
  match s.toList with
  | [y1, y2, y3, y4, '-', m1, m2, '-', d1, d2] =>
    if [y1, y2, y3, y4, m1, m2, d1, d2].all Char.isDigit then
      let y := ((digitVal y1 * 10 + digitVal y2) * 10 + digitVal y3) * 10 + digitVal y4
      let m := digitVal m1 * 10 + digitVal m2
      let d := digitVal d1 * 10 + digitVal d2
      if 1 ≤ m ∧ m ≤ 12 ∧ 1 ≤ d ∧ d ≤ 31 then some (y * 10000 + m * 100 + d) else none
    else none
  | _ => none

/-- Zero-padded rendering of a two-digit number. -/
def pad2 (n : ℕ) : String :=
  if n < 10 then "0" ++ toString n else toString n

/-- `date.strftime("%Y-%m-%d")` on the encoded date. -/
def fmtDate (n : ℕ) : String :=
  toString (n / 10000) ++ "-" ++ pad2 (n / 100 % 100) ++ "-" ++ pad2 (n % 100)

/-- Civil date from days since the Unix epoch (proleptic Gregorian; the
arithmetic of Howard Hinnant's `civil_from_days`, which the CPython date
machinery agrees with on this range). -/
def civilFromDays (z0 : ℤ) : ℤ × ℤ × ℤ :=
  let z := z0 + 719468
  let era := Int.fdiv z 146097
  let doe := z - era * 146097
  let yoe := Int.fdiv (doe - Int.fdiv doe 1460 + Int.fdiv doe 36524 - Int.fdiv doe 146096) 365
  let y := yoe + era * 400
  let doy := doe - (365 * yoe + Int.fdiv yoe 4 - Int.fdiv yoe 100)
  let mp := Int.fdiv (5 * doy + 2) 153
  let d := doy - Int.fdiv (153 * mp + 2) 5 + 1
  let m := mp + (if mp < 10 then 3 else -9)
  (y + (if m ≤ 2 then 1 else 0), m, d)

/-- `iso_date(datetime.fromtimestamp(ts, TZ))` for `TZ = UTC+8`
(weight-sync.py lines 13-14, 185). -/
def epochDateStr (ts : ℤ) : String :=
  let days := Int.fdiv (ts + 8 * 3600) 86400
  let ymd := civilFromDays days
  toString ymd.1 ++ "-" ++ pad2 ymd.2.1.toNat ++ "-" ++ pad2 ymd.2.2.toNat

/-- The date parse of weight-sync.py lines 191-196:
`datetime.fromisoformat(date_str)`, and on failure
`strptime(date_str[:10], "%Y-%m-%d")` with `date_str` re-rendered.
(The records the scripts read carry plain `YYYY-MM-DD` strings, which the
first branch accepts unchanged; longer datetime strings land in the
prefix branch.) -/
def parsePyDate (s : String) : Option (ℕ × String) :=
  match parseIso10 s with
  | some d => some (d, s)
  | none => (parseIso10 (String.mk (s.toList.take 10))).map (fun d => (d, fmtDate d))

/-- `weight = to_float(r.get("weight") or r.get("weightInKg"))`
(weight-sync.py line 201). -/
def weightOf (r : JVal) : Option ℚ := toNum (resolveFields r ["weight", "weightInKg"])

/-- weight-sync.py line 206. -/
def bodyFatPctOf (r : JVal) : Option ℚ :=
  toNum (resolveFields r ["bodyFat", "bodyFatPct", "bodyFatPercentage"])

/-- weight-sync.py line 207. -/
def bodyWaterPctOf (r : JVal) : Option ℚ :=
  toNum (resolveFields r ["bodyWater", "bodyWaterPct", "bodyWaterPercentage"])

/-- weight-sync.py line 210. -/
def bodyFatKgOf (r : JVal) : Option ℚ := toNum (resolveFields r ["fatMass", "bodyFatMass"])

/-- weight-sync.py line 212. -/
def skeletalMuscleOf (r : JVal) : Option ℚ :=
  toNum (resolveFields r ["muscleMass", "skeletalMuscleMass", "muscleMassInKg"])

/-- weight-sync.py line 213. -/
def boneMassOf (r : JVal) : Option ℚ := toNum (resolveFields r ["boneMass", "boneMassInKg"])

/-- weight-sync.py line 214. -/
def bmiOf (r : JVal) : Option ℚ := toNum (resolveFields r ["bmi"])

/-- `change = to_float(r.get("delta") or r.get("change") or
r.get("weightDelta"))` (weight-sync.py line 217): the Change metric is read
from the source record itself. -/
def weightChangeOf (r : JVal) : Option ℚ :=
  toNum (resolveFields r ["delta", "change", "weightDelta"])

/-- The properties built for one weight record (weight-sync.py lines
219-236): mandatory Date and Weight, then the optional metrics in source
order, each written only when resolved. -/
def buildWeightProps (dateStr : String) (w : ℚ) (r : JVal) : PropMap :=
  maybeSet (maybeSet (maybeSet (maybeSet (maybeSet (maybeSet (maybeSet
    [("Date", NProp.date dateStr), ("Weight", NProp.number w)]
    "Change" (weightChangeOf r))
    "Body Fat %" (bodyFatPctOf r))
    "Body Fat (kg)" (bodyFatKgOf r))
    "Skeletal Muscle" (skeletalMuscleOf r))
    "Bone Mass" (boneMassOf r))
    "Body Water %" (bodyWaterPctOf r))
    "BMI" (bmiOf r)

/-- Date extraction for one weight record (weight-sync.py lines 180-188):
`calendarDate`, else `date`, else a date rendered from
`startTimeInSeconds`; no recognised key skips the record, a non-string
value under the string keys ends in slicing a non-string
(`date_str[:10]`), an uncaught `TypeError`. -/
def dateStrOf (r : JVal) : Option (Except String String) :=
  match r.getField "calendarDate" with
  | some (JVal.str s) => some (.ok s)
  | some _ => some (.error "TypeError: date value is not a string")
  | none =>
    match r.getField "date" with
    | some (JVal.str s) => some (.ok s)
    | some _ => some (.error "TypeError: date value is not a string")
    | none =>
      match r.getField "startTimeInSeconds" with
      | some v =>
        match toIntPy v with
        | some n => some (.ok (epochDateStr n))
        | none => some (.error "TypeError: int() failed on startTimeInSeconds")
      | none => none

/-- Outcome of processing one record of the weight loop: skipped, crashed
with an uncaught exception, or a row to upsert. -/
inductive WRes where
  | skip
  | crash (msg : String)
  | row (dateStr : String) (props : PropMap)
  deriving DecidableEq

/-- One iteration of the weight loop (weight-sync.py lines 177-238): date
extraction, date parse, windowing to `[start, today]`, then the mandatory
weight — a record whose weight is missing or unparseable is skipped
entirely (`if weight is None: continue`) — and finally the property
build. -/
def weightRow (startD endD : ℕ) (r : JVal) : WRes :=
  if isObj r then
    match dateStrOf r with
    | none => .skip
    | some (.error m) => .crash m
    | some (.ok ds) =>
      match parsePyDate ds with
      | none => .crash "ValueError: date parse failed"
      | some (d, ds2) =>
        if d < startD ∨ endD < d then .skip
        else
          match weightOf r with
          | none => .skip
          | some w => .row ds2 (buildWeightProps ds2 w r)
  else .crash "TypeError: record is not a dict"

end GarminSync

namespace GarminSync

lemma plookup_change_build (dateStr : String) (w : ℚ) (r : JVal) :
    plookup "Change" (buildWeightProps dateStr w r) = (weightChangeOf r).map NProp.number := by
  simp [buildWeightProps, plookup_maybeSet_ne, plookup_maybeSet_self, plookup]

/-- 79.2, in lowest terms so that concrete evaluation stays within
kernel-reducible structure operations. -/
def q792 : ℚ := ⟨396, 5, by norm_num, by norm_num⟩

/-- −0.8 in lowest terms. -/
def qm08 : ℚ := ⟨-4, 5, by norm_num, by norm_num⟩

/-- −0.5 in lowest terms. -/
def qmHalf : ℚ := ⟨-1, 2, by norm_num, by norm_num⟩

/-- C6 counterexample.  The delta-correctness scenario of the claim: a
destination holding a prior record dated 2024-01-01 with Weight 80, and a
current source entity dated 2024-01-08 with weight 79.2 and no delta field
of its own.  weight-sync.py computes Change from the source record's
`delta`/`change`/`weightDelta` fields only (line 217) — it never queries
the destination for a prior record — so the record stored for 2024-01-08
carries no Change property at all, not the claimed −0.8. -/
theorem weight_delta_ignores_destination :
    q792 = 79.2 ∧ qm08 = -0.8 ∧
    plookup "Weight" [("Date", NProp.date "2024-01-01"), ("Weight", NProp.number 80)]
      = some (NProp.number 80) ∧
    weightRow 20240101 20240131
        (JVal.obj [("calendarDate", JVal.str "2024-01-08"), ("weight", JVal.num q792)])
      = WRes.row "2024-01-08"
          (buildWeightProps "2024-01-08" q792
            (JVal.obj [("calendarDate", JVal.str "2024-01-08"),
              ("weight", JVal.num q792)])) ∧
    (((upsert "2024-01-08"
        (buildWeightProps "2024-01-08" q792
          (JVal.obj [("calendarDate", JVal.str "2024-01-08"),
            ("weight", JVal.num q792)]))
        [⟨1, "2024-01-01", [("Date", NProp.date "2024-01-01"),
          ("Weight", NProp.number 80)]⟩]).2.find?
        (fun rec => rec.key = "2024-01-08")).map (fun rec => plookup "Change" rec.props)
      = some none) ∧
    (some (none : Option NProp) ≠ some (some (NProp.number qm08))) := by
  refine ⟨by rw [q792, Rat.mk'_eq_divInt, Rat.divInt_eq_div]; norm_num,
    by rw [qm08, Rat.mk'_eq_divInt, Rat.divInt_eq_div]; norm_num,
    by decide, by decide, by decide, by decide⟩

/-- C6 (amended).  The Change (delta) metric written for a weight entity
is a function of the source record alone: it is the first truthy of the
source record's `delta`, `change` and `weightDelta` fields parsed as a
number, and it is omitted from the written properties when none parses;
the destination is never queried for a prior record, and no look-back
subtraction takes place. -/
theorem weight_change_from_source_only (dateStr : String) (w : ℚ) (r : JVal)
    (startD endD : ℕ) (ds : String) (p : PropMap) :
    plookup "Change" (buildWeightProps dateStr w r) = (weightChangeOf r).map NProp.number ∧
    (weightRow startD endD r = WRes.row ds p →
      plookup "Change" p = (weightChangeOf r).map NProp.number) := by
  refine ⟨plookup_change_build dateStr w r, fun h => ?_⟩
  rw [weightRow] at h
  split at h
  · split at h
    · simp at h
    · simp at h
    · split at h
      · simp at h
      · split at h
        · simp at h
        · split at h
          · simp at h
          · rw [WRes.row.injEq] at h
            obtain ⟨h1, h2⟩ := h
            subst h2
            exact plookup_change_build _ _ r
  · simp at h

/-- Witness for `weight_change_from_source_only`: a source record carrying
its own `delta` field −0.5; the Change written is exactly that value. -/
theorem weight_change_from_source_only_witness :
    plookup "Change"
      (buildWeightProps "2024-01-08" 79
        (JVal.obj [("calendarDate", JVal.str "2024-01-08"), ("weight", JVal.num 79),
          ("delta", JVal.num qmHalf)]))
      = some (NProp.number qmHalf) := by
  have h := (weight_change_from_source_only "2024-01-08" 79
    (JVal.obj [("calendarDate", JVal.str "2024-01-08"), ("weight", JVal.num 79),
      ("delta", JVal.num qmHalf)]) 20240101 20240131 "2024-01-08"
    (buildWeightProps "2024-01-08" 79
      (JVal.obj [("calendarDate", JVal.str "2024-01-08"), ("weight", JVal.num 79),
        ("delta", JVal.num qmHalf)]))).2 (by decide)
  rw [h]
  decide

end GarminSync

namespace GarminSync

/-- C8 counterexample.  A weight record dated in-window whose `bmi`
resolves to 22 but whose weight is absent: weight-sync.py lines 201-203
(`if weight is None: continue`) skip the record entirely, so none of its
other resolved body-composition metrics is upserted — where the claim says
they still would be. -/
theorem weight_missing_weight_skips_record :
    bmiOf (JVal.obj [("calendarDate", JVal.str "2024-01-08"), ("bmi", JVal.num 22)])
      = some 22 ∧
    weightOf (JVal.obj [("calendarDate", JVal.str "2024-01-08"), ("bmi", JVal.num 22)])
      = none ∧
    weightRow 20240101 20240131
      (JVal.obj [("calendarDate", JVal.str "2024-01-08"), ("bmi", JVal.num 22)])
      = WRes.skip := by
  refine ⟨by decide, by decide, by decide⟩

/-- C8 (amended).  For a weight entity that is upserted, every non-weight
body-composition metric is resolved independently: each is written exactly
when its own candidate fields resolve, and an unresolved metric is simply
omitted without blocking the others.  The weight metric, however, is
mandatory: a record whose weight is missing or unparseable is skipped
entirely — no property of that record, resolved or not, is upserted. -/
theorem weight_metrics_independent (dateStr : String) (w : ℚ) (r : JVal) :
    plookup "BMI" (buildWeightProps dateStr w r) = (bmiOf r).map NProp.number ∧
    plookup "Bone Mass" (buildWeightProps dateStr w r) = (boneMassOf r).map NProp.number ∧
    plookup "Body Water %" (buildWeightProps dateStr w r)
      = (bodyWaterPctOf r).map NProp.number ∧
    plookup "Skeletal Muscle" (buildWeightProps dateStr w r)
      = (skeletalMuscleOf r).map NProp.number ∧
    plookup "Body Fat (kg)" (buildWeightProps dateStr w r)
      = (bodyFatKgOf r).map NProp.number ∧
    plookup "Body Fat %" (buildWeightProps dateStr w r)
      = (bodyFatPctOf r).map NProp.number ∧
    plookup "Weight" (buildWeightProps dateStr w r) = some (NProp.number w) ∧
    plookup "Date" (buildWeightProps dateStr w r) = some (NProp.date dateStr) ∧
    (∀ startD endD ds d ds2, isObj r = true → dateStrOf r = some (Except.ok ds) →
      parsePyDate ds = some (d, ds2) → ¬(d < startD ∨ endD < d) → weightOf r = none →
      weightRow startD endD r = WRes.skip) := by
  refine ⟨?_, ?_, ?_, ?_, ?_, ?_, ?_, ?_, ?_⟩
  · simp [buildWeightProps, plookup_maybeSet_ne, plookup_maybeSet_self, plookup]
  · simp [buildWeightProps, plookup_maybeSet_ne, plookup_maybeSet_self, plookup]
  · simp [buildWeightProps, plookup_maybeSet_ne, plookup_maybeSet_self, plookup]
  · simp [buildWeightProps, plookup_maybeSet_ne, plookup_maybeSet_self, plookup]
  · simp [buildWeightProps, plookup_maybeSet_ne, plookup_maybeSet_self, plookup]
  · simp [buildWeightProps, plookup_maybeSet_ne, plookup_maybeSet_self, plookup]
  · simp [buildWeightProps, plookup_maybeSet_ne, plookup]
  · simp [buildWeightProps, plookup_maybeSet_ne, plookup]
  · intro startD endD ds d ds2 hobj hds hpd hwin hw
    rw [weightRow]
    simp [hobj, hds, hpd, hwin, hw]

/-- Witness for `weight_metrics_independent`: a record resolving only BMI
(value 22) has BMI written; the same record without a weight is skipped
entirely by the row builder. -/
theorem weight_metrics_independent_witness :
    plookup "BMI" (buildWeightProps "2024-01-08" 79 (JVal.obj [("bmi", JVal.num 22)]))
      = some (NProp.number 22) ∧
    weightRow 20240101 20240131
      (JVal.obj [("calendarDate", JVal.str "2024-01-08"), ("bmi", JVal.num 22)])
      = WRes.skip := by
  constructor
  · rw [(weight_metrics_independent "2024-01-08" 79 (JVal.obj [("bmi", JVal.num 22)])).1]
    decide
  · exact (weight_metrics_independent "2024-01-08" 0
      (JVal.obj [("calendarDate", JVal.str "2024-01-08"), ("bmi", JVal.num 22)])).2.2.2.2.2.2.2.2
      20240101 20240131 "2024-01-08" 20240108 "2024-01-08"
      (by decide) rfl (by decide) (by decide) (by decide)

end GarminSync

namespace GarminSync

/-- The per-activity values `main` has in hand when it builds the Notion
properties (activity-sync.py lines 678-730): the mandatory title, date and
activity id; the select-typed activity type; the converter-produced
optional numbers; the raw resolved values handed to `maybe_number`; the
two zone tuples — which at this point are always tuples, never `None`
(lines 640-662 substitute bucketing or `(0, 0, 0, 0, 0)`); and the three
file links. -/
structure ActMetrics where
  title : String
  dateIso : String
  actId : ℚ
  actType : JVal
  distanceKm : Option ℚ
  durationMin : Option ℚ
  movingMin : Option ℚ
  avgPace : Option ℚ
  bestPace : Option ℚ
  avgHr : JVal
  maxHr : JVal
  avgPwr : JVal
  maxPwr : JVal
  elevGain : JVal
  calories : JVal
  aerobicTe : JVal
  anaerobicTe : JVal
  avgCadence : JVal
  gct : JVal
  vo : JVal
  stride : JVal
  hz : Zone5
  pz : Zone5
  fitUrl : String
  tcxUrl : String
  gpxUrl : String

/-- The property build of activity-sync.py lines 680-730, in source order
(each later `props[name] = v` cons-ed at the head).  The ten zone-seconds
properties are written unconditionally: `maybe_number` receives the tuple
components, which are integers and never `None`. -/
def buildActProps (m : ActMetrics) : PropMap :=
  maybeUrl (maybeUrl (maybeUrl
    (("PZ5 (s)", NProp.number (m.pz.2.2.2.2 : ℚ)) ::
     ("PZ4 (s)", NProp.number (m.pz.2.2.2.1 : ℚ)) ::
     ("PZ3 (s)", NProp.number (m.pz.2.2.1 : ℚ)) ::
     ("PZ2 (s)", NProp.number (m.pz.2.1 : ℚ)) ::
     ("PZ1 (s)", NProp.number (m.pz.1 : ℚ)) ::
     ("HR Z5 (s)", NProp.number (m.hz.2.2.2.2 : ℚ)) ::
     ("HR Z4 (s)", NProp.number (m.hz.2.2.2.1 : ℚ)) ::
     ("HR Z3 (s)", NProp.number (m.hz.2.2.1 : ℚ)) ::
     ("HR Z2 (s)", NProp.number (m.hz.2.1 : ℚ)) ::
     ("HR Z1 (s)", NProp.number (m.hz.1 : ℚ)) ::
     maybeNumJ (maybeNumJ (maybeNumJ (maybeNumJ (maybeNumJ (maybeNumJ (maybeNumJ (maybeNumJ
       (maybeNumJ (maybeNumJ (maybeNumJ (maybeNumJ
     (maybeSet (maybeSet (maybeSet (maybeSet (maybeSet
     (maybeSelect
       [("Activity Name", NProp.title m.title), ("Date", NProp.date m.dateIso),
        ("Activity ID", NProp.number m.actId)]
       "Type" m.actType)
       "Distance (km)" m.distanceKm)
       "Duration (min)" m.durationMin)
       "Moving (min)" m.movingMin)
       "Avg Pace (min/km)" m.avgPace)
       "Best Pace (min/km)" m.bestPace)
       "Avg HR" m.avgHr)
       "Max HR" m.maxHr)
       "Avg Power" m.avgPwr)
       "Max Power" m.maxPwr)
       "Elev Gain (m)" m.elevGain)
       "Calories" m.calories)
       "Aerobic TE" m.aerobicTe)
       "Anaerobic TE" m.anaerobicTe)
       "Avg Cadence" m.avgCadence)
       "Avg GCT (ms)" m.gct)
       "Avg VO (cm)" m.vo)
       "Avg Stride (m)" m.stride)
    "FIT Link" m.fitUrl)
    "TCX Link" m.tcxUrl)
    "GPX Link" m.gpxUrl

end GarminSync

namespace GarminSync

/-- An activity none of whose optional metrics resolved: the heart-rate
zones come from the unresolved-everything path of activity-sync.py lines
633-647 (no provider aggregate, no raw stream), which yields the all-zero
tuple rather than an absent value. -/
def unresolvedAct : ActMetrics where
  title := "2024-05-10 · Morning Run"
  dateIso := "2024-05-10T08:00:00+08:00"
  actId := 123
  actType := JVal.null
  distanceKm := none
  durationMin := none
  movingMin := none
  avgPace := none
  bestPace := none
  avgHr := JVal.null
  maxHr := JVal.null
  avgPwr := JVal.null
  maxPwr := JVal.null
  elevGain := JVal.null
  calories := JVal.null
  aerobicTe := JVal.null
  anaerobicTe := JVal.null
  avgCadence := JVal.null
  gct := JVal.null
  vo := JVal.null
  stride := JVal.null
  hz := hrZonesOf JVal.null (JVal.obj []) hrZoneThresholds
  pz := (0, 0, 0, 0, 0)
  fitUrl := ""
  tcxUrl := ""
  gpxUrl := ""

/-- C5 counterexample.  An activity whose heart-rate zones could not be
resolved at all (no provider aggregate, empty raw stream) still writes
`HR Z1 (s) = 0` — the zone tuple defaults to all zeros and `maybe_number`
never sees a `None` — so updating a destination record that previously
held `HR Z1 (s) = 3600` overwrites that value with 0: the ten
zone-seconds properties are never omitted from the patch, contrary to the
claim. -/
theorem unresolved_zones_overwrite_with_zero :
    hrZonesOf JVal.null (JVal.obj []) hrZoneThresholds = (0, 0, 0, 0, 0) ∧
    plookup "HR Z1 (s)" (buildActProps unresolvedAct) = some (NProp.number 0) ∧
    (upsert (123 : ℤ) (buildActProps unresolvedAct)
      [⟨7, (123 : ℤ), [("HR Z1 (s)", NProp.number 3600)]⟩]).1 = "updated" ∧
    ((upsert (123 : ℤ) (buildActProps unresolvedAct)
      [⟨7, (123 : ℤ), [("HR Z1 (s)", NProp.number 3600)]⟩]).2.find?
      (fun rec => rec.key = (123 : ℤ))).map (fun rec => plookup "HR Z1 (s)" rec.props)
      = some (some (NProp.number 0)) ∧
    some (some (NProp.number 0)) ≠ some (some (NProp.number 3600)) := by
  refine ⟨by decide, by decide, by decide, by decide, by decide⟩

/-- C5 (amended).  When an upsert patches an existing destination record,
the patch contains a metric passed through `maybe_number`/`maybe_set`
exactly when the current run resolved it — unresolved ones are omitted, so
the update does not erase their previously-recorded values — but the ten
zone-seconds properties are the exception: they are always present in the
patch (defaulting to all-zero tuples when zone data could not be
resolved), so an update does overwrite previously-recorded zone values. -/
theorem patch_additive_except_zones (m : ActMetrics) :
    plookup "HR Z1 (s)" (buildActProps m) = some (NProp.number (m.hz.1 : ℚ)) ∧
    plookup "HR Z2 (s)" (buildActProps m) = some (NProp.number (m.hz.2.1 : ℚ)) ∧
    plookup "HR Z3 (s)" (buildActProps m) = some (NProp.number (m.hz.2.2.1 : ℚ)) ∧
    plookup "HR Z4 (s)" (buildActProps m) = some (NProp.number (m.hz.2.2.2.1 : ℚ)) ∧
    plookup "HR Z5 (s)" (buildActProps m) = some (NProp.number (m.hz.2.2.2.2 : ℚ)) ∧
    plookup "PZ1 (s)" (buildActProps m) = some (NProp.number (m.pz.1 : ℚ)) ∧
    plookup "PZ2 (s)" (buildActProps m) = some (NProp.number (m.pz.2.1 : ℚ)) ∧
    plookup "PZ3 (s)" (buildActProps m) = some (NProp.number (m.pz.2.2.1 : ℚ)) ∧
    plookup "PZ4 (s)" (buildActProps m) = some (NProp.number (m.pz.2.2.2.1 : ℚ)) ∧
    plookup "PZ5 (s)" (buildActProps m) = some (NProp.number (m.pz.2.2.2.2 : ℚ)) ∧
    plookup "Avg HR" (buildActProps m) = (toNum m.avgHr).map NProp.number ∧
    plookup "Max HR" (buildActProps m) = (toNum m.maxHr).map NProp.number ∧
    plookup "Avg Power" (buildActProps m) = (toNum m.avgPwr).map NProp.number ∧
    plookup "Max Power" (buildActProps m) = (toNum m.maxPwr).map NProp.number ∧
    plookup "Elev Gain (m)" (buildActProps m) = (toNum m.elevGain).map NProp.number ∧
    plookup "Calories" (buildActProps m) = (toNum m.calories).map NProp.number ∧
    plookup "Aerobic TE" (buildActProps m) = (toNum m.aerobicTe).map NProp.number ∧
    plookup "Anaerobic TE" (buildActProps m) = (toNum m.anaerobicTe).map NProp.number ∧
    plookup "Avg Cadence" (buildActProps m) = (toNum m.avgCadence).map NProp.number ∧
    plookup "Avg GCT (ms)" (buildActProps m) = (toNum m.gct).map NProp.number ∧
    plookup "Avg VO (cm)" (buildActProps m) = (toNum m.vo).map NProp.number ∧
    plookup "Avg Stride (m)" (buildActProps m) = (toNum m.stride).map NProp.number ∧
    plookup "Distance (km)" (buildActProps m) = m.distanceKm.map NProp.number ∧
    plookup "Duration (min)" (buildActProps m) = m.durationMin.map NProp.number ∧
    plookup "Moving (min)" (buildActProps m) = m.movingMin.map NProp.number ∧
    plookup "Avg Pace (min/km)" (buildActProps m) = m.avgPace.map NProp.number ∧
    plookup "Best Pace (min/km)" (buildActProps m) = m.bestPace.map NProp.number ∧
    plookup "Type" (buildActProps m) =
      (match m.actType with
       | JVal.null => none
       | v => some (NProp.select (pyStr v))) ∧
    plookup "FIT Link" (buildActProps m)
      = (if m.fitUrl = "" then none else some (NProp.url m.fitUrl)) ∧
    plookup "TCX Link" (buildActProps m)
      = (if m.tcxUrl = "" then none else some (NProp.url m.tcxUrl)) ∧
    plookup "GPX Link" (buildActProps m)
      = (if m.gpxUrl = "" then none else some (NProp.url m.gpxUrl)) ∧
    plookup "Activity Name" (buildActProps m) = some (NProp.title m.title) ∧
    plookup "Date" (buildActProps m) = some (NProp.date m.dateIso) ∧
    plookup "Activity ID" (buildActProps m) = some (NProp.number m.actId) := by
  simp only [buildActProps]
  refine ⟨?_, ?_, ?_, ?_, ?_, ?_, ?_, ?_, ?_, ?_, ?_, ?_, ?_, ?_, ?_, ?_, ?_, ?_, ?_, ?_,
    ?_, ?_, ?_, ?_, ?_, ?_, ?_, ?_, ?_, ?_, ?_, ?_, ?_, ?_⟩ <;>
    simp [plookup, plookup_maybeUrl_ne, plookup_maybeUrl_self, plookup_maybeNumJ_ne,
      plookup_maybeNumJ_self, plookup_maybeSet_ne, plookup_maybeSet_self,
      plookup_maybeSelect_ne, plookup_maybeSelect_self]

end GarminSync

namespace GarminSync

/-- Strict parse of `"%Y-%m-%d %H:%M:%S"` (the format
`datetime.strptime` is given at activity-sync.py line 560), reduced to the
calendar date in the order-preserving encoding `y * 10000 + m * 100 + d`. -/
def parseActDate (s : String) : Option ℕ :=
  match s.toList with
  | [y1, y2, y3, y4, '-', m1, m2, '-', d1, d2, ' ', h1, h2, ':', n1, n2, ':', s1, s2] =>
    if [y1, y2, y3, y4, m1, m2, d1, d2, h1, h2, n1, n2, s1, s2].all Char.isDigit then
      let y := ((digitVal y1 * 10 + digitVal y2) * 10 + digitVal y3) * 10 + digitVal y4
      let mo := digitVal m1 * 10 + digitVal m2
      let dy := digitVal d1 * 10 + digitVal d2
      let hh := digitVal h1 * 10 + digitVal h2
      let mi := digitVal n1 * 10 + digitVal n2
      let ss := digitVal s1 * 10 + digitVal s2
      if 1 ≤ mo ∧ mo ≤ 12 ∧ 1 ≤ dy ∧ dy ≤ 31 ∧ hh ≤ 23 ∧ mi ≤ 59 ∧ ss ≤ 59 then
        some (y * 10000 + mo * 100 + dy)
      else none
    else none
  | _ => none

/-- Where the per-activity guards of the orchestrator loop land for one
summary (activity-sync.py lines 550-565): skipped, crashed, or processed
with the given upsert key. -/
inductive ActStep where
  | skip
  | crash (msg : String)
  | go (key : ℤ)
  deriving DecidableEq

/-- The guard chain of the loop head: a falsy `activityId` skips, a falsy
`startTimeLocal` skips, an unparseable timestamp skips (`except: continue`),
a date before the cutoff skips; otherwise the activity is processed and
upserted under `int(activity_id)` — whose failure would raise out of the
loop. -/
def actKeyDate (cutoff : ℕ) (a : JVal) : ActStep :=
  if ¬truthy (getPy a "activityId") then .skip
  else if ¬truthy (getPy a "startTimeLocal") then .skip
  else
    match getPy a "startTimeLocal" with
    | JVal.str s =>
      match parseActDate s with
      | none => .skip
      | some dte =>
        if dte < cutoff then .skip
        else
          match toIntPy (getPy a "activityId") with
          | none => .crash "TypeError: activity id not convertible to int"
          | some key => .go key
    | _ => .skip

/-- The orchestrator loop of `main` (activity-sync.py lines 550-735).
There is no `try`/`except` around the body: an upsert whose
`notion_request` exhausts its retries raises `RuntimeError` straight out
of the loop.  `faults` is the schedule of those transport outcomes, one
entry consumed per upserted activity (`true` = the upsert's requests
ultimately fail as in `notionRequest_retries_non_transient`); `mk`
abstracts the property assembly of lines 567-730, which depends only on
the activity and its fetched details.  Returns the `(key, outcome)` pairs
printed for the activities processed before any failure, the destination
state, and the escaped exception if one aborted the run. -/
def runActs (cutoff : ℕ) (mk : JVal → PropMap) :
    List JVal → List Bool → Dest ℤ → List (ℤ × String) →
    List (ℤ × String) × Dest ℤ × Option String
  | [], _faults, d, acc => (acc.reverse, d, none)
  | a :: rest, faults, d, acc =>
    match actKeyDate cutoff a with
    | .skip => runActs cutoff mk rest faults d acc
    | .crash msg => (acc.reverse, d, some msg)
    | .go key =>
      if faults.headD false then
        (acc.reverse, d, some "Notion request failed after retries")
      else
        let r := upsert key (mk a) d
        runActs cutoff mk rest faults.tail r.2 ((key, r.1) :: acc)

/-- One run of the orchestrator over the fetched window. -/
def runActivities (cutoff : ℕ) (mk : JVal → PropMap) (acts : List JVal)
    (faults : List Bool) (d : Dest ℤ) : List (ℤ × String) × Dest ℤ × Option String :=
  runActs cutoff mk acts faults d []

end GarminSync

namespace GarminSync

/-- A valid in-window activity summary (id 101). -/
def actA : JVal :=
  JVal.obj [("activityId", JVal.num 101), ("startTimeLocal", JVal.str "2024-05-10 08:00:00")]

/-- A valid in-window activity summary (id 102). -/
def actB : JVal :=
  JVal.obj [("activityId", JVal.num 102), ("startTimeLocal", JVal.str "2024-05-11 09:00:00")]

/-- C7 counterexample.  Two valid in-window activities; the first one's
upsert exhausts its retries.  The orchestrator loop has no `try`/`except`
around the body, so the `RuntimeError` escapes: the run aborts with no
recorded per-entity outcome at all, the second activity is never
processed, and the destination receives nothing — the failure is not
converted into a recorded `failed` outcome and the run does not
continue. -/
theorem entity_failure_aborts_run :
    actKeyDate 20240101 actA = ActStep.go 101 ∧
    actKeyDate 20240101 actB = ActStep.go 102 ∧
    runActivities 20240101 (fun _ => []) [actA, actB] [true, false] [] =
      ([], [], some "Notion request failed after retries") := by
  refine ⟨by decide, by decide, by rfl⟩

/-- C7 (amended).  A failure while processing a single entity is not
caught: the first upsert whose requests exhaust their retries aborts the
whole run at that entity, recording no outcome for it and leaving every
later entity unprocessed and the destination untouched by it.  Only
malformed entities (missing/falsy id, missing or unparseable timestamp,
date before the cutoff) are skipped with the run continuing; a run whose
processed entities all upsert successfully completes with no error and
one recorded outcome per processed entity. -/
theorem run_aborts_on_entity_failure (cutoff : ℕ) (mk : JVal → PropMap)
    (a : JVal) (rest acts : List JVal) (fs : List Bool) (d : Dest ℤ) (key : ℤ) :
    (actKeyDate cutoff a = ActStep.go key →
      runActivities cutoff mk (a :: rest) (true :: fs) d =
        ([], d, some "Notion request failed after retries")) ∧
    (actKeyDate cutoff a = ActStep.skip →
      runActivities cutoff mk (a :: rest) fs d = runActivities cutoff mk rest fs d) ∧
    ((∀ b ∈ acts, ∀ msg, actKeyDate cutoff b ≠ ActStep.crash msg) →
      (runActivities cutoff mk acts [] d).2.2 = none ∧
      (runActivities cutoff mk acts [] d).1.length = acts.countP (fun b =>
        match actKeyDate cutoff b with
        | ActStep.go _ => true
        | _ => false)) := by
  have main : ∀ (acts : List JVal) (d : Dest ℤ) (acc : List (ℤ × String)),
      (∀ b ∈ acts, ∀ msg, actKeyDate cutoff b ≠ ActStep.crash msg) →
      (runActs cutoff mk acts [] d acc).2.2 = none ∧
      (runActs cutoff mk acts [] d acc).1.length = acc.length + acts.countP (fun b =>
        match actKeyDate cutoff b with
        | ActStep.go _ => true
        | _ => false) := by
    intro acts
    induction acts with
    | nil => intro d acc _; simp [runActs]
    | cons b rest ih =>
      intro d acc h
      rcases hstep : actKeyDate cutoff b with _ | msg | k
      · rw [runActs, hstep]
        have := ih d acc (fun b' hb' => h b' (by simp [hb']))
        simp only [List.countP_cons, hstep]
        simpa using this
      · exact absurd hstep (h b (by simp) msg)
      · rw [runActs, hstep]
        simp only [List.headD, List.tail_nil]
        rw [if_neg (show ¬(false = true) by simp)]
        have hrec := ih (upsert k (mk b) d).2 ((k, (upsert k (mk b) d).1) :: acc)
          (fun b' hb' => h b' (by simp [hb']))
        refine ⟨hrec.1, ?_⟩
        rw [hrec.2]
        simp [List.countP_cons, hstep]
        omega
  refine ⟨fun h => ?_, fun h => ?_, fun h => ?_⟩
  · unfold runActivities
    rw [runActs, h]
    simp [List.headD]
  · unfold runActivities
    rw [runActs, h]
  · have := main acts d [] h
    simpa [runActivities] using this

/-- Witness for `run_aborts_on_entity_failure`: the failing-first-entity
run aborts empty-handed, while the same second entity alone with no
transport faults completes with no error and one outcome. -/
theorem run_aborts_on_entity_failure_witness :
    runActivities 20240101 (fun _ => []) [actA, actB] [true, false] [] =
      ([], [], some "Notion request failed after retries") ∧
    (runActivities 20240101 (fun _ => []) [actB] [] []).2.2 = none ∧
    (runActivities 20240101 (fun _ => []) [actB] [] []).1.length = 1 := by
  refine ⟨(run_aborts_on_entity_failure 20240101 (fun _ => []) actA [actB] [] [false] [] 101).1
      (by decide), ?_⟩
  have h := (run_aborts_on_entity_failure 20240101 (fun _ => []) actA [] [actB] [] [] 101).2.2
    (by
      intro b hb msg hcontra
      rw [List.mem_singleton] at hb
      subst hb
      rw [show actKeyDate 20240101 actB = ActStep.go 102 from by decide] at hcontra
      exact ActStep.noConfusion hcontra)
  refine ⟨h.1, ?_⟩
  rw [h.2]
  decide

end GarminSync
